import Mathlib

/-!
Verification of the MCP client lifecycle scripts
(`init-clients.py`, `cleanup-clients.py`, `diagnose-errors.py`).

Strings are shallowly embedded as `List Char`; Python's case-insensitive
substring tests (`keyword in text.lower()`) are embedded via `occursIn`
and `lowerStr` below.  Timestamps are embedded by an executable parser of
the ISO-8601 shape the scripts read and write, with values in exact
integer microseconds (Python's `total_seconds` float equals that count
divided by 10^6, exactly, at these magnitudes).  Exceptions are embedded
as `Option`/explicit outcome types; external
effects (the MCP transport, the wall clock, `os.getenv`) are oracle
parameters.
-/

/-- `leadsWith needle hay`: `needle` is a prefix of `hay` (on `List Char`). -/
def leadsWith : List Char → List Char → Bool
  | [], _ => true
  | _ :: _, [] => false
  | a :: as, b :: bs => a == b && leadsWith as bs

/-- `occursIn needle hay`: Python's substring test `needle in hay`. -/
def occursIn (needle : List Char) : List Char → Bool
  | [] => leadsWith needle []
  | c :: t => leadsWith needle (c :: t) || occursIn needle t

/-- Python `str.lower()` (ASCII case folding suffices for the keyword data). -/
def lowerStr (s : List Char) : List Char := s.map Char.toLower

/-- Python `any(keyword in text for keyword in kws)`. -/
def anyKeywordIn (text : List Char) (kws : List (List Char)) : Bool :=
  kws.any fun k => occursIn k text

/-! ## `diagnose-errors.py`: `McpErrorDiagnostic._categorize_error` -/

def connectionKws : List (List Char) :=
  ["connection".toList, "connect".toList, "timeout".toList, "unreachable".toList]

def permissionKws : List (List Char) :=
  ["permission".toList, "access".toList, "denied".toList, "unauthorized".toList]

def notFoundKws : List (List Char) :=
  ["not found".toList, "404".toList, "missing".toList]

def formatKws : List (List Char) :=
  ["syntax".toList, "json".toList, "parse".toList, "format".toList]

def resourceKws : List (List Char) :=
  ["memory".toList, "limit".toList, "resource".toList]

def securityKws : List (List Char) :=
  ["ssl".toList, "tls".toList, "certificate".toList]

/-- `_categorize_error`: the if/elif chain over the lower-cased error text. -/
def categorizeError (error : List Char) : List Char :=
  let e := lowerStr error
  if anyKeywordIn e connectionKws then "connection_error".toList
  else if anyKeywordIn e permissionKws then "permission_error".toList
  else if anyKeywordIn e notFoundKws then "resource_not_found".toList
  else if anyKeywordIn e formatKws then "format_error".toList
  else if anyKeywordIn e resourceKws then "resource_exhaustion".toList
  else if anyKeywordIn e securityKws then "security_error".toList
  else "unknown_error".toList

/-- The spec's view of categorization: an ordered decision table of
(keyword bucket, category) pairs, first matching bucket wins,
no match yields `unknown_error`. -/
def bucketTable : List (List (List Char) × List Char) :=
  [(connectionKws, "connection_error".toList),
   (permissionKws, "permission_error".toList),
   (notFoundKws, "resource_not_found".toList),
   (formatKws, "format_error".toList),
   (resourceKws, "resource_exhaustion".toList),
   (securityKws, "security_error".toList)]

/-- Spec-side categorization: walk an ordered decision table of
(keyword bucket, category) pairs, first matching bucket wins. -/
def firstMatchIn (error : List Char) :
    List (List (List Char) × List Char) → List Char
  | [] => "unknown_error".toList
  | b :: rest =>
      if anyKeywordIn (lowerStr error) b.1 then b.2 else firstMatchIn error rest

/-- Spec-side categorization: first matching bucket of `bucketTable`,
no match yields `unknown_error`. -/
def specFirstMatch (error : List Char) : List Char :=
  firstMatchIn error bucketTable

/-! ## `diagnose-errors.py`: recovery-action lookup -/

/-- `_get_recovery_actions`'s lookup table (`recovery_actions` dict). -/
def recoveryActionsTable : List (List Char × List (List Char)) :=
  [("connection_error".toList,
    ["Check MCP server status and availability".toList,
     "Verify network connectivity and firewall settings".toList,
     "Restart MCP servers if necessary".toList,
     "Implement retry mechanism with exponential backoff".toList,
     "Check server logs for additional error details".toList]),
   ("permission_error".toList,
    ["Verify MCP server credentials and API keys".toList,
     "Check file system permissions for MCP server access".toList,
     "Ensure proper environment variables are set".toList,
     "Review server access control configurations".toList,
     "Check user account permissions and roles".toList]),
   ("resource_not_found".toList,
    ["Verify MCP server endpoints and URLs".toList,
     "Check if required MCP server tools are installed".toList,
     "Ensure MCP server configuration files exist".toList,
     "Validate server capability declarations".toList,
     "Check server registration and discovery".toList]),
   ("format_error".toList,
    ["Validate JSON configuration file syntax".toList,
     "Check for proper data type conversions".toList,
     "Verify MCP protocol message formats".toList,
     "Review encoding and character set issues".toList,
     "Regenerate configuration files if corrupted".toList]),
   ("resource_exhaustion".toList,
    ["Monitor system resource usage (CPU, memory, disk)".toList,
     "Increase system resource limits if possible".toList,
     "Implement connection pooling and cleanup".toList,
     "Optimize MCP client initialization timing".toList,
     "Add resource monitoring and alerting".toList]),
   ("security_error".toList,
    ["Check SSL/TLS certificate validity and expiration".toList,
     "Verify certificate chain and trust store".toList,
     "Update security protocols and cipher suites".toList,
     "Review firewall and security group settings".toList,
     "Check for certificate authority issues".toList]),
   ("unknown_error".toList,
    ["Enable detailed debug logging for MCP clients".toList,
     "Collect comprehensive error logs and stack traces".toList,
     "Review recent system and configuration changes".toList,
     "Test MCP connections in isolation".toList,
     "Consult MCP server documentation and community".toList])]

/-- `_get_recovery_actions`: `recovery_actions.get(category, [fallback])`. -/
def getRecoveryActions (error : List Char) : List (List Char) :=
  match recoveryActionsTable.lookup (categorizeError error) with
  | some acts => acts
  | none => ["Manual investigation required".toList]

/-! ## `diagnose-errors.py`: `_identify_affected_clients` -/

/-- A client record as the diagnostic reads it: only `.get('status')` is used. -/
def statusFlagged (status : Option (List Char)) : Bool :=
  status == some "unhealthy".toList || status == some "failed".toList

/-- `_identify_affected_clients` over the `mcpClients` map (name, status). -/
def identifyAffectedClients (mcp : List (List Char × Option (List Char))) :
    List (List Char) :=
  let affected := (mcp.filter fun p => statusFlagged p.2).map Prod.fst
  if affected.isEmpty && !mcp.isEmpty then mcp.map Prod.fst else affected

/-! ## `init-clients.py`: requirement detection -/

structure ClientRequirement where
  name : List Char
  type : List Char
  command : List Char
  args : List (List Char)
  env : List (List Char × List Char)
deriving DecidableEq

structure ErrorEntry where
  timestamp : List Char
  client : List Char
  error : List Char
  type : List Char
deriving DecidableEq

/-- A client record as persisted by `initialize_all_clients` (the
`client_configs` projection: `config`, `connected_at`, `status`). -/
structure PersistClient where
  config : ClientRequirement
  connected_at : List Char
  status : List Char
deriving DecidableEq

/-- The task configuration document (`mcp-config.json`) as the
initialization script reads and writes it. -/
structure InitConfig where
  feature : Option (List Char)
  taskTitle : Option (List Char)
  mcpClients : List (List Char × PersistClient)
  activeConnections : List (List Char)
  errors : List ErrorEntry
deriving DecidableEq

/-- `self.config.get('feature', '').lower()` and likewise for the title. -/
def getLower (o : Option (List Char)) : List Char := lowerStr (o.getD [])

def dbKeywords : List (List Char) :=
  ["database".toList, "sql".toList, "query".toList, "migration".toList,
   "schema".toList, "data".toList]

def fsKeywords : List (List Char) :=
  ["file".toList, "directory".toList, "upload".toList, "download".toList,
   "storage".toList, "import".toList, "export".toList]

def githubKeywords : List (List Char) :=
  ["github".toList, "repository".toList, "commit".toList, "branch".toList,
   "pr".toList, "pull request".toList]

def apiKeywords : List (List Char) :=
  ["api".toList, "rest".toList, "endpoint".toList, "service".toList,
   "integration".toList, "webhook".toList]

/-- `any(keyword in feature or keyword in title for keyword in kws)`. -/
def bucketMatches (cfg : InitConfig) (kws : List (List Char)) : Bool :=
  kws.any fun k =>
    occursIn k (getLower cfg.feature) || occursIn k (getLower cfg.taskTitle)

def requiresDatabase (cfg : InitConfig) : Bool := bucketMatches cfg dbKeywords

def requiresFilesystem (cfg : InitConfig) : Bool := bucketMatches cfg fsKeywords

def requiresGithub (cfg : InitConfig) : Bool := bucketMatches cfg githubKeywords

def requiresApi (cfg : InitConfig) : Bool := bucketMatches cfg apiKeywords

/-- `os.getenv(name, default)` with the ambient environment as an oracle. -/
def envGet (getenv : List Char → Option (List Char))
    (name dflt : List Char) : List Char := (getenv name).getD dflt

def databaseReq (getenv : List Char → Option (List Char)) : ClientRequirement :=
  { name := "database".toList, type := "database".toList,
    command := "python".toList, args := ["mcp-database-server.py".toList],
    env := [("DB_CONNECTION_STRING".toList,
             envGet getenv "DB_CONNECTION_STRING".toList []),
            ("DB_READ_ONLY".toList, "true".toList),
            ("DB_TIMEOUT".toList, "30".toList)] }

def filesystemReq (getenv : List Char → Option (List Char))
    (cwd : List Char) : ClientRequirement :=
  { name := "filesystem".toList, type := "filesystem".toList,
    command := "python".toList, args := ["mcp-filesystem-server.py".toList],
    env := [("ALLOWED_PATHS".toList, envGet getenv "ALLOWED_PATHS".toList cwd),
            ("MAX_FILE_SIZE".toList, "10485760".toList)] }

def githubReq (getenv : List Char → Option (List Char)) : ClientRequirement :=
  { name := "github".toList, type := "github".toList,
    command := "npx".toList,
    args := ["@modelcontextprotocol/server-github".toList],
    env := [("GITHUB_PERSONAL_ACCESS_TOKEN".toList,
             envGet getenv "GITHUB_TOKEN".toList [])] }

def apiReq (getenv : List Char → Option (List Char)) : ClientRequirement :=
  { name := "api".toList, type := "api".toList,
    command := "python".toList, args := ["mcp-api-server.py".toList],
    env := [("API_BASE_URL".toList, envGet getenv "API_BASE_URL".toList []),
            ("API_KEY".toList, envGet getenv "API_KEY".toList []),
            ("RATE_LIMIT".toList, "100".toList)] }

/-- `detect_required_clients`: one requirement per matching bucket,
appended in the source's fixed order. -/
def detectRequiredClients (getenv : List Char → Option (List Char))
    (cwd : List Char) (cfg : InitConfig) : List ClientRequirement :=
  (if requiresDatabase cfg then [databaseReq getenv] else [])
    ++ (if requiresFilesystem cfg then [filesystemReq getenv cwd] else [])
    ++ (if requiresGithub cfg then [githubReq getenv] else [])
    ++ (if requiresApi cfg then [apiReq getenv] else [])

/-- The spec's view of detection: ordered buckets (category, keywords). -/
def detectionBuckets : List (List Char × List (List Char)) :=
  [("database".toList, dbKeywords), ("filesystem".toList, fsKeywords),
   ("github".toList, githubKeywords), ("api".toList, apiKeywords)]

/-! ## `init-clients.py`: client initialization, health check -/

/-- An in-memory entry of `self.clients` (the live handle is not data). -/
structure MemClient where
  config : ClientRequirement
  connected_at : List Char
  status : List Char
  last_error : Option (List Char)
deriving DecidableEq

/-- Manager state: in-memory `self.clients`, in-memory `self.config`, and
the persisted `mcp-config.json` contents. -/
structure MgrState where
  clients : List (List Char × MemClient)
  config : InitConfig
  persisted : InitConfig
deriving DecidableEq

/-- `save_config`: write the in-memory config to the file. -/
def saveConfig (st : MgrState) : MgrState := { st with persisted := st.config }

/-- The `ErrorEntry` appended on a connection failure. -/
def connectionFailedEntry (now name e : List Char) : ErrorEntry :=
  ⟨now, name, e, "connection_failed".toList⟩

/-- `initialize_client`: `outcome = none` models a successful transport
construction + handshake, `outcome = some e` models any exception `e`
raised on that path (caught by the `except` clause). -/
def initializeClient (now : List Char) (outcome : Option (List Char))
    (req : ClientRequirement) (st : MgrState) : MgrState × Bool :=
  match outcome with
  | none =>
      ({ st with clients :=
          st.clients ++ [(req.name, ⟨req, now, "connected".toList, none⟩)] },
       true)
  | some e =>
      ({ st with config := { st.config with errors :=
          st.config.errors ++ [connectionFailedEntry now req.name e] } },
       false)

/-- `initialize_all_clients` after detection: run every attempt (the
`asyncio.gather` fan-out, embedded as a fold since each attempt touches a
disjoint key), rebuild `mcpClients` and `activeConnections` from
`self.clients`, and save.  An empty requirement list returns early
without saving. -/
def initializeAllFrom (now : List Char)
    (outcome : ClientRequirement → Option (List Char))
    (reqs : List ClientRequirement) (st : MgrState) : MgrState :=
  if reqs.isEmpty then st
  else
    let st1 := reqs.foldl (fun s r => (initializeClient now (outcome r) r s).1) st
    let st2 := { st1 with config := { st1.config with
        mcpClients :=
          st1.clients.map fun p => (p.1, ⟨p.2.config, p.2.connected_at, p.2.status⟩),
        activeConnections := st1.clients.map Prod.fst } }
    saveConfig st2

def initializeAllClients (getenv : List Char → Option (List Char))
    (cwd now : List Char) (outcome : ClientRequirement → Option (List Char))
    (st : MgrState) : MgrState :=
  initializeAllFrom now outcome (detectRequiredClients getenv cwd st.config) st

/-- `health_check`: probe each in-memory client (`list_tools`); on failure
(`probe name = some e`) mark it `unhealthy` and record `last_error`. -/
def healthCheck (probe : List Char → Option (List Char))
    (st : MgrState) : MgrState :=
  { st with clients := st.clients.map fun p =>
      match probe p.1 with
      | none => p
      | some e =>
          (p.1, { p.2 with status := "unhealthy".toList, last_error := some e }) }

/-- `main`: initialize all clients, then health-check when the flag is set. -/
def mainInitFlow (getenv : List Char → Option (List Char)) (cwd now : List Char)
    (outcome : ClientRequirement → Option (List Char))
    (probe : List Char → Option (List Char)) (healthFlag : Bool)
    (st : MgrState) : MgrState :=
  let st1 := initializeAllClients getenv cwd now outcome st
  if healthFlag then healthCheck probe st1 else st1

/-! ## `cleanup-clients.py`: disconnect and the context document -/

/-- A client record as the cleanup script reads and mutates it. -/
structure CleanRecord where
  connected_at : Option (List Char)
  disconnected_at : Option (List Char)
  status : List Char
  final_task_status : Option (List Char)
deriving DecidableEq

/-- The task configuration document as the cleanup script sees it. -/
structure CleanConfig where
  startedAt : Option (List Char)
  activeConnections : List (List Char)
  mcpClients : List (List Char × CleanRecord)
  errors : List ErrorEntry
  disconnectedAt : Option (List Char)
deriving DecidableEq

/-- The mutation applied to one record: `disconnected_at`, `status`,
`final_task_status`. -/
def markDisconnected (now finalStatus : List Char) (r : CleanRecord) : CleanRecord :=
  { r with disconnected_at := some now, status := "disconnected".toList,
           final_task_status := some finalStatus }

/-- `disconnect_clients`: when `activeConnections` is empty it logs and
returns without touching or saving the document; otherwise it marks each
active name present in `mcpClients` as disconnected, clears
`activeConnections`, stamps `disconnectedAt`, and saves. -/
def disconnectClients (now finalStatus : List Char)
    (cfg : CleanConfig) : CleanConfig :=
  if cfg.activeConnections.isEmpty then cfg
  else
    { cfg with
      mcpClients := cfg.mcpClients.map fun p =>
        if cfg.activeConnections.contains p.1 then
          (p.1, markDisconnected now finalStatus p.2)
        else p,
      activeConnections := [],
      disconnectedAt := some now }

/-- The contents of `mcp-config.json` after `perform_cleanup`:
`disconnect_clients` is the only step that writes that document (metrics,
the cleanup summary and temp-file removal touch other files, and the temp
patterns `*.tmp`, `*.log`, `*.pid`, `temp_*` do not match `mcp-config.json`). -/
def performCleanupDoc (now finalStatus : List Char)
    (cfg : CleanConfig) : CleanConfig :=
  disconnectClients now finalStatus cfg

/-! ## `cleanup-clients.py`: `_calculate_duration` -/

def digitVal (c : Char) : Nat := c.toNat - 48

/-- Read exactly `k` decimal digits, most significant first. -/
def readFixed : Nat → Nat → List Char → Option (Nat × List Char)
  | 0, acc, rest => some (acc, rest)
  | _ + 1, _, [] => none
  | k + 1, acc, c :: cs =>
      if c.isDigit then readFixed k (acc * 10 + digitVal c) cs else none

def expectChar (c : Char) : List Char → Option (List Char)
  | [] => none
  | x :: xs => if x == c then some xs else none

/-- Days since 1970-01-01 of a proleptic-Gregorian civil date
(the standard era/year-of-era computation, in `Int`). -/
def daysFromCivil (y m d : Int) : Int :=
  let y2 : Int := if m ≤ 2 then y - 1 else y
  let era : Int := (if 0 ≤ y2 then y2 else y2 - 399) / 400
  let yoe : Int := y2 - era * 400
  let mp : Int := if 2 < m then m - 3 else m + 9
  let doy : Int := (153 * mp + 2) / 5 + d - 1
  let doe : Int := yoe * 365 + yoe / 4 - yoe / 100 + doy
  era * 146097 + doe - 719468

/-- Leading run of decimal digits of a string, and the rest. -/
def grabDigits : List Char → List Char × List Char
  | [] => ([], [])
  | c :: cs =>
      if c.isDigit then
        match grabDigits cs with
        | (ds, rest) => (c :: ds, rest)
      else ([], c :: cs)

/-- Value of a digit run, most significant first. -/
def digitsVal (ds : List Char) : Nat :=
  ds.foldl (fun a c => a * 10 + digitVal c) 0

/-- Optional fractional-second part: `.` or `,` followed by at least one
digit; digits beyond the sixth are truncated, shorter runs are scaled up
— both as `datetime.fromisoformat` does.  Value in microseconds. -/
def parseFraction : List Char → Option (Nat × List Char)
  | [] => some (0, [])
  | c :: rest =>
      if c == '.' || c == ',' then
        match grabDigits rest with
        | (ds, rest2) =>
            if ds.isEmpty then none
            else
              some (digitsVal (ds.take 6) * 10 ^ (6 - (ds.take 6).length),
                rest2)
      else some (0, c :: rest)

/-- A UTC offset, validated and signed the way `datetime.timezone` does:
component values are free but the total magnitude must be strictly below
24 hours.  Value in microseconds, paired with the aware flag. -/
def mkOffset (sign : Char) (oh om osec : Nat) : Option (Int × Bool) :=
  if oh * 3600 + om * 60 + osec < 86400 then
    some ((if sign == '-' then
            -((oh * 3600 + om * 60 + osec : Int) * 1000000)
          else (oh * 3600 + om * 60 + osec : Int) * 1000000),
      true)
  else none

/-- Optional trailing UTC offset: `±HH`, `±HH:MM`, `±HH:MM:SS`, or basic
`±HHMM` / `±HHMMSS`; its presence makes the parsed value timezone-aware
(second component `true`). -/
def parseOffset : List Char → Option (Int × Bool)
  | [] => some (0, false)
  | c :: rest =>
      if c == '+' || c == '-' then
        match readFixed 2 0 rest with
        | none => none
        | some (oh, s1) =>
          match s1 with
          | [] => mkOffset c oh 0 0
          | ':' :: s2 =>
              (match readFixed 2 0 s2 with
              | none => none
              | some (om, s3) =>
                match s3 with
                | [] => mkOffset c oh om 0
                | ':' :: s4 =>
                    (match readFixed 2 0 s4 with
                    | none => none
                    | some (osec, s5) =>
                        if s5.isEmpty then mkOffset c oh om osec else none)
                | _ => none)
          | _ =>
              match readFixed 2 0 s1 with
              | none => none
              | some (om, s3) =>
                match s3 with
                | [] => mkOffset c oh om 0
                | _ =>
                    match readFixed 2 0 s3 with
                    | none => none
                    | some (osec, s5) =>
                        if s5.isEmpty then mkOffset c oh om osec else none
      else none

/-- Date part: extended `YYYY-MM-DD` or basic `YYYYMMDD`. -/
def parseDate (s : List Char) : Option (Nat × Nat × Nat × List Char) :=
  match readFixed 4 0 s with
  | none => none
  | some (y, s1) =>
    match s1 with
    | '-' :: s2 =>
        (match readFixed 2 0 s2 with
        | none => none
        | some (mo, s3) =>
          match expectChar '-' s3 with
          | none => none
          | some s4 =>
            match readFixed 2 0 s4 with
            | none => none
            | some (d, s5) => some (y, mo, d, s5))
    | _ =>
        match readFixed 2 0 s1 with
        | none => none
        | some (mo, s3) =>
          match readFixed 2 0 s3 with
          | none => none
          | some (d, s5) => some (y, mo, d, s5)

/-- Optional minute and second after the hour: extended `:MM[:SS]` or
basic `MM[SS]`; absent components read as zero, as in `fromisoformat`. -/
def parseMinSec : List Char → Option (Nat × Nat × List Char)
  | [] => some (0, 0, [])
  | ':' :: s2 =>
      (match readFixed 2 0 s2 with
      | none => none
      | some (mi, s3) =>
        match s3 with
        | ':' :: s4 =>
            (match readFixed 2 0 s4 with
            | none => none
            | some (sec, s5) => some (mi, sec, s5))
        | _ => some (mi, 0, s3))
  | c :: s1 =>
      if c.isDigit then
        match readFixed 2 0 (c :: s1) with
        | none => none
        | some (mi, s3) =>
          match s3 with
          | [] => some (mi, 0, [])
          | c2 :: _ =>
              if c2.isDigit then
                match readFixed 2 0 s3 with
                | none => none
                | some (sec, s5) => some (mi, sec, s5)
              else some (mi, 0, s3)
      else some (0, 0, c :: s1)

/-- Clock part `HH[:MM[:SS]]` (or basic `HH[MM[SS]]`) with an optional
fractional part, which `fromisoformat` applies as microseconds after
whichever components are present. -/
def parseClock (s : List Char) : Option (Nat × Nat × Nat × Nat × List Char) :=
  match readFixed 2 0 s with
  | none => none
  | some (h, s1) =>
    match parseMinSec s1 with
    | none => none
    | some (mi, sec, s2) =>
      match parseFraction s2 with
      | none => none
      | some (frac, s3) => some (h, mi, sec, frac, s3)

/-- Gregorian leap-year rule, as `datetime.date` applies it. -/
def isLeapYear (y : Nat) : Bool :=
  (y % 4 == 0 && y % 100 != 0) || y % 400 == 0

/-- Month lengths, as `datetime.date` validates the day against. -/
def daysInMonth (y m : Nat) : Nat :=
  if m == 2 then (if isLeapYear y then 29 else 28)
  else if m == 4 || m == 6 || m == 9 || m == 11 then 30
  else 31

/-- The range validation the `datetime` constructor performs on parsed
fields: `MINYEAR ≤ year`, month 1-12, day within the month's true length
(leap-year aware), 24-hour clock. -/
def fieldsValid (y mo d h mi sec : Nat) : Bool :=
  decide (1 ≤ y) && decide (1 ≤ mo) && decide (mo ≤ 12)
    && decide (1 ≤ d) && decide (d ≤ daysInMonth y mo)
    && decide (h ≤ 23) && decide (mi ≤ 59) && decide (sec ≤ 59)

/-- Microseconds since the epoch of a civil date-time (exact integer
arithmetic; a Python `datetime` holds exactly this information). -/
def civilMicros (y mo d h mi sec frac : Nat) : Int :=
  daysFromCivil (y : Int) (mo : Int) (d : Int) * 86400000000
    + (h : Int) * 3600000000 + (mi : Int) * 60000000
    + (sec : Int) * 1000000 + (frac : Int)

/-- `datetime.fromisoformat` (Python 3.11 semantics): a date — extended
`YYYY-MM-DD` or basic `YYYYMMDD`, alone meaning midnight — optionally
followed by any single separator character and a clock
`HH[:MM[:SS]][.ffffff]` (basic `HHMMSS` forms included), optionally
followed by a UTC offset `±HH[:MM[:SS]]` / `±HHMM[SS]`.  Field ranges
are validated month-length- and leap-year-aware, and the offset
magnitude must be under 24 hours.  Value: microseconds since the epoch,
plus whether the stamp carried an offset.  Out of modeled scope (none
produced by these scripts, whose stamps are `isoformat() + 'Z'`): week
and ordinal dates, fractional offset seconds.  The duration theorems
quantify over the parser (`calculateDurationWith`) wherever the exact
acceptance boundary would matter. -/
def parseIsoTimestamp (s : List Char) : Option (Int × Bool) :=
  match parseDate s with
  | none => none
  | some (y, mo, d, s1) =>
    match s1 with
    | [] =>
        if fieldsValid y mo d 0 0 0 then
          some (civilMicros y mo d 0 0 0 0, false)
        else none
    | _ :: timeRest =>
        match parseClock timeRest with
        | none => none
        | some (h, mi, sec, frac, s2) =>
          match parseOffset s2 with
          | none => none
          | some (off, aware) =>
              if fieldsValid y mo d h mi sec then
                some (civilMicros y mo d h mi sec frac - off, aware)
              else none

/-- `time.replace('Z', '+00:00')`. -/
def replaceZ : List Char → List Char
  | [] => []
  | c :: cs =>
      if c == 'Z' then '+' :: '0' :: '0' :: ':' :: '0' :: '0' :: replaceZ cs
      else c :: replaceZ cs

/-- `datetime.fromisoformat(t.replace('Z', '+00:00'))`. -/
def parseTimestamp (s : List Char) : Option (Int × Bool) :=
  parseIsoTimestamp (replaceZ s)

/-- `_calculate_duration`, parametric in the external parser: `None` when
either input is `None` or empty (Python falsiness), when the
`datetime.fromisoformat` call (`pyParse`) fails on either, or when one
stamp is offset-aware and the other naive (subtracting those raises
`TypeError`, caught by the bare `except`); otherwise the difference in
exact integer microseconds — `total_seconds()` of the source is this
value divided by 10^6 (exact in a 64-bit float at these magnitudes).
The parser is a parameter so that theorems about the surrounding control
flow hold for the true library parser, whatever it accepts. -/
def calculateDurationWith (pyParse : List Char → Option (Int × Bool)) :
    Option (List Char) → Option (List Char) → Option Int
  | some st, some en =>
      if st.isEmpty || en.isEmpty then none
      else
        match pyParse st, pyParse en with
        | some s, some e => if s.2 == e.2 then some (e.1 - s.1) else none
        | _, _ => none
  | _, _ => none

/-- `_calculate_duration` with the embedded parser instance. -/
def calculateDuration : Option (List Char) → Option (List Char) → Option Int :=
  calculateDurationWith parseTimestamp

/-! ## Configuration loading (`load_config` of the three scripts) -/

/-- The state of the persisted document a loader finds. -/
inductive DocState (α : Type) : Type
  | missing : DocState α
  | malformed : DocState α
  | valid : α → DocState α
deriving DecidableEq

/-- What a loader does: exit the process with a code, or proceed with a
configuration value. -/
inductive LoadOutcome (α : Type) : Type
  | exited : Nat → LoadOutcome α
  | loaded : α → LoadOutcome α
deriving DecidableEq

/-- `McpClientManager.load_config` (init script): `sys.exit(1)` on
`FileNotFoundError` and on `json.JSONDecodeError`. -/
def initLoadConfig : DocState InitConfig → LoadOutcome InitConfig
  | .missing => .exited 1
  | .malformed => .exited 1
  | .valid c => .loaded c

/-- The empty context the lenient loaders degrade to (`self.config = {}`). -/
def emptyCleanConfig : CleanConfig :=
  ⟨none, [], [], [], none⟩

/-- `McpClientCleanup.load_config`: degrade to `{}` on a missing or
malformed document. -/
def cleanupLoadConfig : DocState CleanConfig → LoadOutcome CleanConfig
  | .missing => .loaded emptyCleanConfig
  | .malformed => .loaded emptyCleanConfig
  | .valid c => .loaded c

/-- `McpErrorDiagnostic.load_config`: same lenient policy; the diagnostic
only reads the `mcpClients` map (name ↦ status). -/
def diagnoseLoadConfig :
    DocState (List (List Char × Option (List Char)))
      → LoadOutcome (List (List Char × Option (List Char)))
  | .missing => .loaded []
  | .malformed => .loaded []
  | .valid c => .loaded c

/-! ## Auxiliary definitions used by the theorems -/

/-- The `unknown_error` row of the recovery-action table. -/
def unknownErrorActions : List (List Char) :=
  (recoveryActionsTable.lookup "unknown_error".toList).getD []

/-- The in-memory client entry `initialize_client` stores on success. -/
def succEntry (now : List Char)
    (outcome : ClientRequirement → Option (List Char))
    (r : ClientRequirement) : Option (List Char × MemClient) :=
  match outcome r with
  | none => some (r.name, ⟨r, now, "connected".toList, none⟩)
  | some _ => none

/-- The error entry `initialize_client` appends on failure. -/
def failEntry (now : List Char)
    (outcome : ClientRequirement → Option (List Char))
    (r : ClientRequirement) : Option ErrorEntry :=
  match outcome r with
  | none => none
  | some e => some (connectionFailedEntry now r.name e)

/-- A task configuration whose text triggers exactly the database bucket. -/
def dbOnlyConfig : InitConfig :=
  { feature := some "database".toList, taskTitle := none,
    mcpClients := [], activeConnections := [], errors := [] }

/-- A fresh manager over `dbOnlyConfig` (empty in-memory client table). -/
def dbOnlyState : MgrState := ⟨[], dbOnlyConfig, dbOnlyConfig⟩

/-- A task configuration whose text triggers the database and filesystem
buckets. -/
def dbFsConfig : InitConfig :=
  { feature := some "database file".toList, taskTitle := none,
    mcpClients := [], activeConnections := [], errors := [] }

/-- A fresh manager over `dbFsConfig`. -/
def dbFsState : MgrState := ⟨[], dbFsConfig, dbFsConfig⟩

/-- An outcome oracle under which exactly the `database` client fails. -/
def dbFailsOutcome (r : ClientRequirement) : Option (List Char) :=
  if r.name == "database".toList then some "boom".toList else none

/-- An empty task configuration (no detection keywords at all). -/
def emptyInitConfig : InitConfig :=
  { feature := none, taskTitle := none,
    mcpClients := [], activeConnections := [], errors := [] }

/-- An already-cleaned-up context: no active connections, one
disconnected record. -/
def cleanedConfig : CleanConfig :=
  { startedAt := some "2024-01-01T00:00:00Z".toList,
    activeConnections := [],
    mcpClients := [("database".toList,
      ⟨some "2024-01-01T00:00:00Z".toList, some "2024-01-01T00:05:00Z".toList,
       "disconnected".toList, some "completed".toList⟩)],
    errors := [], disconnectedAt := some "2024-01-01T00:05:00Z".toList }

/-- The configuration document `initialize_all_clients` saves: rebuilt
`mcpClients` and `activeConnections` from the in-memory client table, and
the errors appended by the failed attempts. -/
def initResultConfig (now : List Char)
    (outcome : ClientRequirement → Option (List Char))
    (reqs : List ClientRequirement) (st : MgrState) : InitConfig :=
  { st.config with
    mcpClients := (st.clients ++ reqs.filterMap (succEntry now outcome)).map
        fun p => (p.1, ⟨p.2.config, p.2.connected_at, p.2.status⟩),
    activeConnections :=
      (st.clients ++ reqs.filterMap (succEntry now outcome)).map Prod.fst,
    errors := st.config.errors ++ reqs.filterMap (failEntry now outcome) }

/-! ## Helper lemmas -/

/-- The source's if/elif chain is exactly the spec's ordered decision
table over `bucketTable`. -/
lemma categorize_eq_specFirstMatch (e : List Char) :
    categorizeError e = specFirstMatch e := rfl

/-- `_categorize_error` only ever returns one of the seven category tags. -/
lemma categorize_mem (e : List Char) :
    categorizeError e ∈
      ["connection_error".toList, "permission_error".toList,
       "resource_not_found".toList, "format_error".toList,
       "resource_exhaustion".toList, "security_error".toList,
       "unknown_error".toList] := by
  simp only [categorizeError]
  split_ifs <;> simp

/-- Every reachable category has a five-step action list. -/
lemma getRecoveryActions_length (e : List Char) :
    (getRecoveryActions e).length = 5 := by
  have h := categorize_mem e
  simp only [List.mem_cons, List.not_mem_nil, or_false] at h
  rcases h with h | h | h | h | h | h | h <;>
    simp only [getRecoveryActions, h] <;> decide

/-! ## Claim C2 -/

/-- C2: error categorization is deterministic and equals the first
matching bucket of the fixed ordered six-bucket decision table
(connection, permission, not-found, format, resource-exhaustion,
security); "Connection timeout to server" categorizes as
`connection_error`, "Permission denied: access forbidden" as
`permission_error`, and a string matching no bucket as `unknown_error`. -/
theorem claim_C2_categorization :
    (∀ e, categorizeError e = specFirstMatch e)
    ∧ categorizeError "Connection timeout to server".toList
        = "connection_error".toList
    ∧ categorizeError "Permission denied: access forbidden".toList
        = "permission_error".toList
    ∧ ∀ e, (∀ b ∈ bucketTable, anyKeywordIn (lowerStr e) b.1 = false) →
        categorizeError e = "unknown_error".toList := by
  refine ⟨fun e => categorize_eq_specFirstMatch e, by decide, by decide, ?_⟩
  intro e h
  simp only [bucketTable, List.forall_mem_cons, List.forall_mem_nil,
    and_true] at h
  obtain ⟨h1, h2, h3, h4, h5, h6⟩ := h
  simp only [categorizeError]
  simp [h1, h2, h3, h4, h5, h6]

/-- Witness for C2's no-match case at the concrete string "hello". -/
theorem claim_C2_witness :
    categorizeError "hello".toList = "unknown_error".toList :=
  claim_C2_categorization.2.2.2 "hello".toList (by decide)

/-! ## Claim C3 -/

/-- C3 counterexample: "hello" matches no bucket, so its category is
`unknown_error`, yet its recommended actions are NOT a one-element list
(the `recovery_actions` dict has an explicit five-element `unknown_error`
row, so the one-element `.get` fallback is unreachable). -/
theorem claim_C3_counterexample :
    categorizeError "hello".toList = "unknown_error".toList
    ∧ (getRecoveryActions "hello".toList).length ≠ 1 := by decide

/-- C3 amended: every error whose category is `unknown_error` gets the
fixed five-element `unknown_error` action list (not the single fallback
action), and every category's action list has exactly 5 steps. -/
theorem claim_C3_amended :
    (∀ e, categorizeError e = "unknown_error".toList →
        getRecoveryActions e = unknownErrorActions)
    ∧ (∀ e, (getRecoveryActions e).length = 5)
    ∧ unknownErrorActions.length = 5 := by
  refine ⟨?_, getRecoveryActions_length, by decide⟩
  intro e h
  simp only [getRecoveryActions, h]
  decide

/-- Witness for C3's amended claim at the concrete string "hello". -/
theorem claim_C3_witness :
    getRecoveryActions "hello".toList = unknownErrorActions :=
  claim_C3_amended.1 "hello".toList (by decide)

/-! ## Claim C7 -/

/-- C7: if the client map is non-empty and no record has status
`unhealthy` or `failed`, diagnosis reports all configured client names as
affected; otherwise the affected clients are exactly the names whose
status is `unhealthy` or `failed`. -/
theorem claim_C7_affected (mcp : List (List Char × Option (List Char))) :
    ((mcp ≠ []) → (∀ p ∈ mcp, statusFlagged p.2 = false) →
        identifyAffectedClients mcp = mcp.map Prod.fst)
    ∧ ((∃ p ∈ mcp, statusFlagged p.2 = true) →
        identifyAffectedClients mcp
          = (mcp.filter fun p => statusFlagged p.2).map Prod.fst) := by
  constructor
  · intro hne hflag
    have hfil : (mcp.filter fun p => statusFlagged p.2) = [] := by
      rw [List.filter_eq_nil_iff]
      intro p hp
      simp [hflag p hp]
    have hmcp : mcp.isEmpty = false := by
      cases mcp with
      | nil => exact absurd rfl hne
      | cons a l => rfl
    simp [identifyAffectedClients, hfil, hmcp]
  · rintro ⟨p, hp, hflag⟩
    have hfil : (mcp.filter fun q => statusFlagged q.2) ≠ [] := by
      intro h0
      have := List.filter_eq_nil_iff.mp h0 p hp
      simp [hflag] at this
    have haff :
        ((mcp.filter fun q => statusFlagged q.2).map Prod.fst).isEmpty
          = false := by
      cases hc : mcp.filter fun q => statusFlagged q.2 with
      | nil => exact absurd hc hfil
      | cons a l => rfl
    simp [identifyAffectedClients, haff]

/-- Witness for C7 at `{a: connected, b: connected}` (all-affected
fallback) and `{a: failed, b: connected}` (exact flagged set). -/
theorem claim_C7_witness :
    identifyAffectedClients
        [("a".toList, some "connected".toList),
         ("b".toList, some "connected".toList)]
      = ["a".toList, "b".toList]
    ∧ identifyAffectedClients
        [("a".toList, some "failed".toList),
         ("b".toList, some "connected".toList)]
      = ["a".toList] := by
  constructor
  · have h := (claim_C7_affected
      [("a".toList, some "connected".toList),
       ("b".toList, some "connected".toList)]).1 (by decide) (by decide)
    rw [h]
    decide
  · have h := (claim_C7_affected
      [("a".toList, some "failed".toList),
       ("b".toList, some "connected".toList)]).2 (by decide)
    rw [h]
    decide

/-! ## Claim C5 -/

/-- C5 counterexample: in the initialization entry point, a present but
malformed (unparsable JSON) configuration document also exits non-zero —
not only a missing config path, against the claim's "only when ... is
missing". -/
theorem claim_C5_counterexample :
    initLoadConfig DocState.malformed = LoadOutcome.exited 1 := rfl

/-- C5 amended: the cleanup and diagnosis loaders degrade to an empty
context on a missing or malformed document and never exit; the
initialization entry point exits non-zero (before any client work) both
when its required config path is missing and when the document is
malformed JSON. -/
theorem claim_C5_amended :
    initLoadConfig DocState.missing = LoadOutcome.exited 1
    ∧ initLoadConfig DocState.malformed = LoadOutcome.exited 1
    ∧ (∀ c, initLoadConfig (DocState.valid c) = LoadOutcome.loaded c)
    ∧ cleanupLoadConfig DocState.missing = LoadOutcome.loaded emptyCleanConfig
    ∧ cleanupLoadConfig DocState.malformed = LoadOutcome.loaded emptyCleanConfig
    ∧ (∀ d : DocState CleanConfig, ∃ c, cleanupLoadConfig d = LoadOutcome.loaded c)
    ∧ (∀ d : DocState (List (List Char × Option (List Char))),
        ∃ c, diagnoseLoadConfig d = LoadOutcome.loaded c) := by
  refine ⟨rfl, rfl, fun c => rfl, rfl, rfl, ?_, ?_⟩
  · intro d
    cases d with
    | missing => exact ⟨emptyCleanConfig, rfl⟩
    | malformed => exact ⟨emptyCleanConfig, rfl⟩
    | valid c => exact ⟨c, rfl⟩
  · intro d
    cases d with
    | missing => exact ⟨[], rfl⟩
    | malformed => exact ⟨[], rfl⟩
    | valid c => exact ⟨c, rfl⟩

/-! ## Claim C8 -/

/-- C8: cleanup is idempotent on the persisted context document: on a
context whose `activeConnections` is already empty, `perform_cleanup`
leaves the document unchanged (no new error entries, no record mutation,
no timestamps), and in general a second cleanup is a no-op. -/
theorem claim_C8_idempotent :
    (∀ now finalStatus cfg, cfg.activeConnections = [] →
        performCleanupDoc now finalStatus cfg = cfg)
    ∧ (∀ now1 s1 now2 s2 cfg,
        performCleanupDoc now2 s2 (performCleanupDoc now1 s1 cfg)
          = performCleanupDoc now1 s1 cfg) := by
  have hbase : ∀ now finalStatus cfg, cfg.activeConnections = [] →
      performCleanupDoc now finalStatus cfg = cfg := by
    intro now fs cfg h
    simp [performCleanupDoc, disconnectClients, h]
  refine ⟨hbase, ?_⟩
  intro n1 s1 n2 s2 cfg
  cases hac : cfg.activeConnections.isEmpty
  · have : (performCleanupDoc n1 s1 cfg).activeConnections = [] := by
      simp [performCleanupDoc, disconnectClients, hac]
    exact hbase n2 s2 _ this
  · have h0 : cfg.activeConnections = [] := by
      cases hl : cfg.activeConnections with
      | nil => rfl
      | cons a l => rw [hl] at hac; simp at hac
    rw [hbase n1 s1 cfg h0, hbase n2 s2 cfg h0]

/-- Witness for C8 at a concrete already-cleaned context. -/
theorem claim_C8_witness :
    performCleanupDoc "2024-01-01T00:06:00Z".toList "completed".toList
        cleanedConfig = cleanedConfig :=
  claim_C8_idempotent.1 "2024-01-01T00:06:00Z".toList "completed".toList
    cleanedConfig rfl

/-! ## Claim C9 -/

/-- C9: `health_check` mutates only the in-memory client table and never
the in-memory or persisted configuration document, so after `main` runs
with the health-check flag the persisted `mcp-config.json` is exactly
what `initialize_all_clients` saved — an `unhealthy` status from a health
check is never visible in the document the diagnosis and cleanup
processes read. -/
theorem claim_C9_healthcheck_frame
    (getenv : List Char → Option (List Char)) (cwd now : List Char)
    (outcome : ClientRequirement → Option (List Char))
    (probe : List Char → Option (List Char)) (st : MgrState) :
    (healthCheck probe st).persisted = st.persisted
    ∧ (healthCheck probe st).config = st.config
    ∧ (mainInitFlow getenv cwd now outcome probe true st).persisted
        = (initializeAllClients getenv cwd now outcome st).persisted :=
  ⟨rfl, rfl, rfl⟩

/-! ## Claim C6 -/

/-- C6: the duration for connectedAt 2024-01-01T00:00:00Z and
disconnectedAt 2024-01-01T00:05:00Z is exactly 300 seconds (300000000
microseconds, the embedding's exact unit), and whenever either timestamp
is missing (absent or Python-falsy empty) or unparsable the result is
`none` — the embedding is a total function, matching the source's
catch-all `except` that turns any parse failure into `None`.  The
unparsable cases are stated for an arbitrary parse oracle `pyParse`, so
they hold for `datetime.fromisoformat` itself regardless of its exact
acceptance boundary; the concrete case uses the embedded parser
instance. -/
theorem claim_C6_duration :
    calculateDuration (some "2024-01-01T00:00:00Z".toList)
        (some "2024-01-01T00:05:00Z".toList) = some (300 * 1000000)
    ∧ (∀ pyParse : List Char → Option (Int × Bool),
        ∀ e, calculateDurationWith pyParse none e = none)
    ∧ (∀ pyParse : List Char → Option (Int × Bool),
        ∀ s, calculateDurationWith pyParse s none = none)
    ∧ (∀ pyParse : List Char → Option (Int × Bool), ∀ s e,
        pyParse s = none →
        calculateDurationWith pyParse (some s) (some e) = none)
    ∧ (∀ pyParse : List Char → Option (Int × Bool), ∀ s e,
        pyParse e = none →
        calculateDurationWith pyParse (some s) (some e) = none) := by
  refine ⟨by decide, ?_, ?_, ?_, ?_⟩
  · intro pyParse e
    rfl
  · intro pyParse s
    cases s <;> rfl
  · intro pyParse s e h
    by_cases hs : s.isEmpty <;> by_cases he : e.isEmpty <;>
      simp [calculateDurationWith, hs, he, h]
  · intro pyParse s e h
    by_cases hs : s.isEmpty <;> by_cases he : e.isEmpty <;>
      cases hps : pyParse s <;>
        simp [calculateDurationWith, hs, he, h, hps]

/-- Witness for C6's unparsable cases: the embedded parser instance at
the concrete strings "garbage" and "2024-02-30T00:00:00Z" (a day out of
range for the month, which `fromisoformat` also rejects). -/
theorem claim_C6_witness :
    calculateDurationWith parseTimestamp (some "garbage".toList)
        (some "2024-01-01T00:05:00Z".toList) = none
    ∧ calculateDurationWith parseTimestamp
        (some "2024-01-01T00:00:00Z".toList)
        (some "2024-02-30T00:00:00Z".toList) = none :=
  ⟨claim_C6_duration.2.2.2.1 parseTimestamp "garbage".toList
      "2024-01-01T00:05:00Z".toList (by decide),
   claim_C6_duration.2.2.2.2 parseTimestamp
      "2024-01-01T00:00:00Z".toList
      "2024-02-30T00:00:00Z".toList (by decide)⟩

/-! ## Claim C10 -/

/-- C10: `_calculate_duration` performs no ordering check: for every pair
of comparably parseable timestamps (both naive or both offset-aware —
subtracting a mixed pair raises in Python, and "strictly earlier"
presupposes comparability) where the disconnect stamp is strictly
earlier than the connect stamp, it returns the negative difference, not
`none` and not an error.  Stated for an arbitrary parse oracle, so it
holds for `datetime.fromisoformat` itself, whatever it accepts; the
nonemptiness hypotheses are vacuous for the true parser, which rejects
the empty string (the code's falsiness check fires first anyway). -/
theorem claim_C10_negative (pyParse : List Char → Option (Int × Bool))
    (s e : List Char) (qs qe : Int) (aw : Bool)
    (hs0 : s ≠ []) (he0 : e ≠ [])
    (hs : pyParse s = some (qs, aw))
    (he : pyParse e = some (qe, aw))
    (hlt : qe < qs) :
    calculateDurationWith pyParse (some s) (some e) = some (qe - qs)
    ∧ qe - qs < 0 := by
  have hs1 : s.isEmpty = false := by
    cases s with
    | nil => exact absurd rfl hs0
    | cons a t => rfl
  have he1 : e.isEmpty = false := by
    cases e with
    | nil => exact absurd rfl he0
    | cons a t => rfl
  constructor
  · simp [calculateDurationWith, hs1, he1, hs, he]
  · exact sub_neg.mpr hlt

/-- Witness for C10: disconnect five minutes before connect yields
exactly -300 seconds. -/
theorem claim_C10_witness :
    calculateDurationWith parseTimestamp
        (some "2024-01-01T00:05:00Z".toList)
        (some "2024-01-01T00:00:00Z".toList)
      = some ((1704067200000000 : Int) - 1704067500000000)
    ∧ ((1704067200000000 : Int) - 1704067500000000) < 0 :=
  claim_C10_negative parseTimestamp "2024-01-01T00:05:00Z".toList
    "2024-01-01T00:00:00Z".toList 1704067500000000 1704067200000000 true
    (by decide) (by decide) (by decide) (by decide) (by decide)

/-- Detection emits, in the source's fixed order, exactly one requirement
per bucket whose keywords match, and that requirement's `type` is the
bucket's category. -/
lemma detect_types_eq (getenv : List Char → Option (List Char))
    (cwd : List Char) (cfg : InitConfig) :
    (detectRequiredClients getenv cwd cfg).map ClientRequirement.type
      = (detectionBuckets.filter fun b => bucketMatches cfg b.2).map
          Prod.fst := by
  unfold detectRequiredClients requiresDatabase requiresFilesystem
    requiresGithub requiresApi detectionBuckets
  cases h1 : bucketMatches cfg dbKeywords <;>
    cases h2 : bucketMatches cfg fsKeywords <;>
      cases h3 : bucketMatches cfg githubKeywords <;>
        cases h4 : bucketMatches cfg apiKeywords <;>
          simp [h1, h2, h3, h4, databaseReq, filesystemReq, githubReq, apiReq]

/-- Unfolding of one `initialize_all_clients` fan-out pass: successful
attempts extend the in-memory client table, failed ones append
`connection_failed` error entries; nothing else changes. -/
lemma initFold (now : List Char)
    (outcome : ClientRequirement → Option (List Char))
    (reqs : List ClientRequirement) : ∀ st : MgrState,
    reqs.foldl (fun s r => (initializeClient now (outcome r) r s).1) st
      = { st with
          clients := st.clients ++ reqs.filterMap (succEntry now outcome),
          config := { st.config with
            errors :=
              st.config.errors ++ reqs.filterMap (failEntry now outcome) } } := by
  induction reqs with
  | nil =>
      intro st
      simp
  | cons r rs ih =>
      intro st
      cases ho : outcome r with
      | none =>
          have hstep : (initializeClient now (outcome r) r st).1
              = { st with clients := st.clients
                  ++ [(r.name, ⟨r, now, "connected".toList, none⟩)] } := by
            rw [ho]
            rfl
          rw [List.foldl_cons, hstep, ih]
          simp [succEntry, failEntry, ho]
      | some e =>
          have hstep : (initializeClient now (outcome r) r st).1
              = { st with config := { st.config with errors := st.config.errors
                  ++ [connectionFailedEntry now r.name e] } } := by
            rw [ho]
            rfl
          rw [List.foldl_cons, hstep, ih]
          simp [succEntry, failEntry, ho]

/-- On a non-empty requirement list, `initialize_all_clients` saves
exactly `initResultConfig` and keeps it in memory. -/
lemma initializeAllFrom_eq (now : List Char)
    (outcome : ClientRequirement → Option (List Char))
    (reqs : List ClientRequirement) (st : MgrState) (hne : reqs ≠ []) :
    initializeAllFrom now outcome reqs st
      = ⟨st.clients ++ reqs.filterMap (succEntry now outcome),
         initResultConfig now outcome reqs st,
         initResultConfig now outcome reqs st⟩ := by
  have hempty : reqs.isEmpty = false := by
    cases reqs with
    | nil => exact absurd rfl hne
    | cons a l => rfl
  unfold initializeAllFrom
  rw [hempty, initFold now outcome reqs st]
  rfl

/-- Success entries plus failed attempts account for every requirement. -/
lemma succ_fail_counts (now : List Char)
    (outcome : ClientRequirement → Option (List Char))
    (reqs : List ClientRequirement) :
    (reqs.filterMap (succEntry now outcome)).length
      + (reqs.filter fun r => (outcome r).isSome).length = reqs.length := by
  induction reqs with
  | nil => rfl
  | cons r rs ih =>
      cases ho : outcome r <;>
        simp [succEntry, ho, List.filter_cons] <;> omega

/-- One `connection_failed` entry is appended per failed attempt. -/
lemma fail_counts (now : List Char)
    (outcome : ClientRequirement → Option (List Char))
    (reqs : List ClientRequirement) :
    (reqs.filterMap (failEntry now outcome)).length
      = (reqs.filter fun r => (outcome r).isSome).length := by
  induction reqs with
  | nil => rfl
  | cons r rs ih =>
      cases ho : outcome r <;> simp [failEntry, ho, List.filter_cons, ih]

/-- Every stored in-memory entry of a fan-out pass has status `connected`. -/
lemma succEntry_status {now : List Char}
    {outcome : ClientRequirement → Option (List Char)}
    {reqs : List ClientRequirement} {p : List Char × MemClient}
    (h : p ∈ reqs.filterMap (succEntry now outcome)) :
    p.2.status = "connected".toList := by
  obtain ⟨r, hr, hfr⟩ := List.mem_filterMap.mp h
  cases ho : outcome r with
  | none =>
      simp only [succEntry, ho, Option.some.injEq] at hfr
      rw [← hfr]
  | some e => simp [succEntry, ho] at hfr

/-- Every appended error entry of a fan-out pass has type
`connection_failed`. -/
lemma failEntry_type {now : List Char}
    {outcome : ClientRequirement → Option (List Char)}
    {reqs : List ClientRequirement} {en : ErrorEntry}
    (h : en ∈ reqs.filterMap (failEntry now outcome)) :
    en.type = "connection_failed".toList := by
  obtain ⟨r, hr, hfr⟩ := List.mem_filterMap.mp h
  cases ho : outcome r with
  | none => simp [failEntry, ho] at hfr
  | some e =>
      simp only [failEntry, ho, Option.some.injEq] at hfr
      rw [← hfr]
      rfl

/-! ## Claim C4 -/

/-- C4: requirement detection is a pure function of the `feature` and
`taskTitle` texts: the emitted requirement categories are exactly the
keyword buckets (database, filesystem, github — the spec's
"vcs-integration" — and api) with at least one case-insensitive keyword
hit in `feature` or `taskTitle`; no category is emitted twice, and with
no keyword match the result is the empty list. -/
theorem claim_C4_detection (getenv : List Char → Option (List Char))
    (cwd : List Char) (cfg : InitConfig) :
    ((detectRequiredClients getenv cwd cfg).map ClientRequirement.type
        = (detectionBuckets.filter fun b => bucketMatches cfg b.2).map
            Prod.fst)
    ∧ (∀ t, t ∈ (detectRequiredClients getenv cwd cfg).map
          ClientRequirement.type
        ↔ ∃ b ∈ detectionBuckets, b.1 = t ∧ bucketMatches cfg b.2 = true)
    ∧ ((detectRequiredClients getenv cwd cfg).map ClientRequirement.type).Nodup
    ∧ ((∀ b ∈ detectionBuckets, bucketMatches cfg b.2 = false) →
        detectRequiredClients getenv cwd cfg = []) := by
  refine ⟨detect_types_eq getenv cwd cfg, ?_, ?_, ?_⟩
  · intro t
    rw [detect_types_eq getenv cwd cfg]
    constructor
    · intro ht
      obtain ⟨b, hb, rfl⟩ := List.mem_map.mp ht
      exact ⟨b, (List.mem_filter.mp hb).1, rfl,
        (List.mem_filter.mp hb).2⟩
    · rintro ⟨b, hb, rfl, hmatch⟩
      exact List.mem_map.mpr ⟨b, List.mem_filter.mpr ⟨hb, hmatch⟩, rfl⟩
  · rw [detect_types_eq getenv cwd cfg]
    exact List.Nodup.sublist
      ((List.filter_sublist _).map Prod.fst) (by decide)
  · intro h
    have h2 := detect_types_eq getenv cwd cfg
    rw [List.filter_eq_nil_iff.mpr (by intro b hb; simp [h b hb])] at h2
    simpa using h2

/-- Witness for C4's no-match case: an empty context detects nothing. -/
theorem claim_C4_witness :
    detectRequiredClients (fun _ => none) [] emptyInitConfig = [] :=
  (claim_C4_detection (fun _ => none) [] emptyInitConfig).2.2.2 (by decide)

/-! ## Claim C1 -/

/-- C1 counterexample: over one detected requirement (database) whose
connection attempt fails, the persisted `mcpClients` has 0 entries, not
N = 1 — `initialize_client` records nothing for a failed client (no
record with status `failed` exists), so `mcpClients` holds only the N−M
successes. -/
theorem claim_C1_counterexample :
    (initializeAllClients (fun _ => none) [] "t".toList
          (fun _ => some "boom".toList) dbOnlyState).persisted.mcpClients.length
        = 0
    ∧ (detectRequiredClients (fun _ => none) [] dbOnlyState.config).length = 1
    ∧ ¬ (initializeAllClients (fun _ => none) [] "t".toList
          (fun _ => some "boom".toList) dbOnlyState).persisted.mcpClients.length
        = (detectRequiredClients (fun _ => none) [] dbOnlyState.config).length
    := by decide

/-- C1 amended: a run of `initialize_all_clients` over N detected
requirements of which M fail persists exactly N−M entries in
`mcpClients` — only the successes, each with status `connected` (failed
clients are NOT recorded) — exactly N−M names in `activeConnections`,
and appends exactly M (hence at least M) `connection_failed` error
entries; the call is a total function of its oracles, never raising for
a single client's failure.  Stated additively (`successes + M = N`) to
avoid truncated subtraction. -/
theorem claim_C1_amended (getenv : List Char → Option (List Char))
    (cwd now : List Char) (outcome : ClientRequirement → Option (List Char))
    (st : MgrState) (hcl : st.clients = [])
    (hne : detectRequiredClients getenv cwd st.config ≠ []) :
    ((initializeAllClients getenv cwd now outcome st).persisted.mcpClients.length
        + ((detectRequiredClients getenv cwd st.config).filter
            fun r => (outcome r).isSome).length
      = (detectRequiredClients getenv cwd st.config).length)
    ∧ (∀ p ∈ (initializeAllClients getenv cwd now outcome st).persisted.mcpClients,
        p.2.status = "connected".toList)
    ∧ ((initializeAllClients getenv cwd now outcome st).persisted.activeConnections.length
        = (initializeAllClients getenv cwd now outcome st).persisted.mcpClients.length)
    ∧ ((initializeAllClients getenv cwd now outcome st).persisted.errors
        = st.config.errors
          ++ (detectRequiredClients getenv cwd st.config).filterMap
              (failEntry now outcome))
    ∧ (((detectRequiredClients getenv cwd st.config).filterMap
          (failEntry now outcome)).length
        = ((detectRequiredClients getenv cwd st.config).filter
            fun r => (outcome r).isSome).length)
    ∧ (∀ en ∈ (detectRequiredClients getenv cwd st.config).filterMap
          (failEntry now outcome),
        en.type = "connection_failed".toList) := by
  have heq := initializeAllFrom_eq now outcome
    (detectRequiredClients getenv cwd st.config) st hne
  unfold initializeAllClients
  rw [heq]
  refine ⟨?_, ?_, ?_, ?_, fail_counts now outcome _, ?_⟩
  · simp [initResultConfig, hcl]
    exact succ_fail_counts now outcome _
  · intro p hp
    simp only [initResultConfig, hcl, List.nil_append, List.mem_map] at hp
    obtain ⟨q, hq, rfl⟩ := hp
    exact succEntry_status hq
  · simp [initResultConfig]
  · simp [initResultConfig]
  · intro en hen
    exact failEntry_type hen

/-- Witness for C1's amended claim: two detected requirements (database
and filesystem), the database connection fails — one success persisted. -/
theorem claim_C1_witness :
    (initializeAllClients (fun _ => none) [] "t".toList dbFailsOutcome
          dbFsState).persisted.mcpClients.length
        + ((detectRequiredClients (fun _ => none) [] dbFsState.config).filter
            fun r => (dbFailsOutcome r).isSome).length
      = (detectRequiredClients (fun _ => none) [] dbFsState.config).length :=
  (claim_C1_amended (fun _ => none) [] "t".toList dbFailsOutcome dbFsState
    rfl (by decide)).1
